import Mathlib

/-!
Shallow embedding of the keyboard-display subsystem of `src/index.js`
(qmk-hid-display): frame encoding, chunked HID transport, inbound report
handling, and the refresh/push stages of the scheduler tick.  Each definition
carries the source lines it embeds.  Strings are modelled as lists of
character codes (`List Nat`), HID packets as `List Nat`.
-/

/- Timing constants, src/index.js lines 26-32. -/

def KEYBOARD_UPDATE_TIME : Nat := 1000

def STOCK_UPDATE_TIME : Nat := 60000

def STOCK_BACKGROUND_TIME : Nat := STOCK_UPDATE_TIME * 30

def WEATHER_UPDATE_TIME : Nat := 60000

def WEATHER_BACKGROUND_TIME : Nat := WEATHER_UPDATE_TIME * 10

def PERF_UPDATE_TIME : Nat := KEYBOARD_UPDATE_TIME

def PERF_BACKGROUND_TIME : Nat := PERF_UPDATE_TIME * 10

/- Screen slot indices, src/index.js lines 35-37. -/

def SCREEN_PERF : Nat := 1

def SCREEN_STOCK : Nat := 2

def SCREEN_WEATHER : Nat := 3

/-- `screens.length` for `screens = [null, fn, fn, fn]`, src/index.js line 39. -/
def screensLength : Nat := 4

/-- Slot occupancy of the `screens` array (line 39): slot 0 is `null`, slots
1..3 hold renderer functions, any other index is out of range (`undefined`,
falsy). -/
def screensHasRenderer (i : Nat) : Bool := decide (1 ≤ i ∧ i ≤ 3)

/-- Char code of the padding character `' '`. -/
def spaceChar : Nat := 32

/-- Frame encoding loop of `sendToKeyboard`, src/index.js lines 343-350:
`for (i = 0; i < screenHeight * screenWidth; i++)` pushes a space when
`i >= screen.length - 1` (in integer arithmetic this is `screen.length ≤ i + 1`,
also covering the empty string, where `length - 1 = -1`), and otherwise pushes
`screen.charCodeAt(i)`. -/
def encode (screen : List Nat) (w h : Nat) : List Nat :=
  (List.range (h * w)).map (fun i =>
    if screen.length ≤ i + 1 then spaceChar else screen.getD i spaceChar)

/-- Chunking loop of `sendToKeyboard`, src/index.js lines 354-362:
`for (i = 0; i < screenBuffer.length; i += 30)` emits
`[0, packetType].concat(screenBuffer.slice(i, i + 30))`, with `packetType`
starting at 2 and set to 3 after the first packet.  The loop is embedded by
recursion on the not-yet-emitted suffix of the buffer; `fuel` bounds the number
of iterations (each iteration needs at least one remaining byte, so
`fuel = buf.length` always suffices and the fuel-exhausted branch is never
reached from `chunkLines`). -/
def chunkLoop : Nat → Nat → List Nat → List (List Nat)
  | _, _, [] => []
  | 0, _, _ => []
  | fuel + 1, packetType, buf =>
      ([0, packetType] ++ buf.take 30) :: chunkLoop fuel 3 (buf.drop 30)

/-- The `lines` array built by `sendToKeyboard` for a byte buffer,
src/index.js lines 354-362. -/
def chunkLines (buf : List Nat) : List (List Nat) := chunkLoop buf.length 2 buf

/-- Transport-side mutable state of src/index.js: `screenBufferActive` models
`screenBuffer !== null` (line 46, the in-flight marker), `screenLastUpdate`
models the string variable of line 47 (the last rendered text recorded by a
push, `none` before any push). -/
structure TransportState where
  screenBufferActive : Bool
  screenLastUpdate : Option (List Nat)
deriving DecidableEq

/-- Initial transport state: `screenBuffer = null`, `screenLastUpdate = null`
(lines 46-47). -/
def initTransportState : TransportState := ⟨false, none⟩

/-- `sendToKeyboard`, src/index.js lines 328-384, with the renderer output
already evaluated to `screen` (the rendered text as char codes).  Control flow
of the source: if `screenBuffer` is non-null or `screenLastUpdate === screen`,
return at once (line 334); otherwise record `screenLastUpdate = screen`
(line 340), build the byte buffer (lines 343-350) and the packet list
(lines 354-362), then write the packets one by one (lines 368-380) and finally
set `screenBuffer = null` (line 383).  `failAt = some k` injects a write error
thrown by `keyboard.write` on the k-th packet (0-based): the packets before it
are written, the loop aborts, and neither the line-383 cleanup nor any catch in
this function runs.  Returns (packets actually written, final transport state,
whether a write error was thrown). -/
def sendToKeyboard (w h : Nat) (screen : List Nat) (failAt : Option Nat)
    (st : TransportState) : List (List Nat) × TransportState × Bool :=
  if st.screenBufferActive = true ∨ st.screenLastUpdate = some screen then
    ([], st, false)
  else
    let buffer := encode screen w h
    let packets := chunkLines buffer
    match failAt with
    | some k =>
        if k < packets.length then
          (packets.take k, ⟨true, some screen⟩, true)
        else
          (packets, ⟨false, some screen⟩, false)
    | none => (packets, ⟨false, some screen⟩, false)

/-- Scheduler-side selection state of src/index.js lines 41-43:
`currentScreenIndex`, `screenWidth`, `screenHeight`. -/
structure ScheduleState where
  currentScreenIndex : Nat
  screenWidth : Nat
  screenHeight : Nat
deriving DecidableEq

/-- Initial selection state: index 0, width 0, height 0 (lines 41-43). -/
def initScheduleState : ScheduleState := ⟨0, 0, 0⟩

/-- Inbound-report handler registered by `keyboard.on("data", ...)`,
src/index.js lines 423-434: if `data[0] == 1 && data[1] <= screens.length - 1`
then `currentScreenIndex`, `screenWidth`, `screenHeight` are set from bytes
1, 2, 3 and `triggerUpdate()` fires; otherwise nothing happens.  Returns the
new state and whether `triggerUpdate` was called. -/
def onData (b0 b1 b2 b3 : Nat) (st : ScheduleState) : ScheduleState × Bool :=
  if b0 = 1 ∧ b1 ≤ screensLength - 1 then
    ({ currentScreenIndex := b1, screenWidth := b2, screenHeight := b3 }, true)
  else
    (st, false)

/-- The refresh condition repeated for each data source at src/index.js lines
390, 394 and 398:
`(currentScreenIndex === S && last + updateTime <= now) || (last + backgroundTime <= now)`. -/
def refreshDue (selected : Bool) (lastUpdate now updateTime backgroundTime : Nat) : Bool :=
  (selected && decide (lastUpdate + updateTime ≤ now))
    || decide (lastUpdate + backgroundTime ≤ now)

/-- The `last_updates` map of src/index.js lines 50-53, one timestamp per data
source. -/
structure LastUpdates where
  perf : Nat
  stock : Nat
  weather : Nat
deriving DecidableEq

/-- Refresh-decision stage of `updateKeyboardScreen`, src/index.js lines
386-401: for each data source, if its `refreshDue` condition holds, the async
trigger is fired and `last_updates[S] = now` is assigned synchronously at
decision time (lines 392, 396, 400) — the outcome of the async trigger is not
consulted.  Returns the new timestamps and the three decision flags
(perf, stock, weather). -/
def updateRefreshStage (currentScreenIndex : Nat) (t : LastUpdates) (now : Nat) :
    LastUpdates × (Bool × Bool × Bool) :=
  let rp := refreshDue (decide (currentScreenIndex = SCREEN_PERF)) t.perf now
    PERF_UPDATE_TIME PERF_BACKGROUND_TIME
  let rs := refreshDue (decide (currentScreenIndex = SCREEN_STOCK)) t.stock now
    STOCK_UPDATE_TIME STOCK_BACKGROUND_TIME
  let rw := refreshDue (decide (currentScreenIndex = SCREEN_WEATHER)) t.weather now
    WEATHER_UPDATE_TIME WEATHER_BACKGROUND_TIME
  (⟨if rp then now else t.perf, if rs then now else t.stock,
    if rw then now else t.weather⟩, (rp, rs, rw))

/-- Push stage of `updateKeyboardScreen`, src/index.js lines 446-455:
`if (keyboard && screens[currentScreenIndex]) sendToKeyboard(screens[currentScreenIndex])`.
The renderer family `screens` is modelled by `render idx w h` giving the text
rendered by slot `idx`.  Returns whether a send was attempted and the resulting
transport state. -/
def updatePushStage (keyboardPresent : Bool) (st : ScheduleState)
    (render : Nat → Nat → Nat → List Nat) (tst : TransportState) :
    Bool × TransportState :=
  if keyboardPresent && screensHasRenderer st.currentScreenIndex then
    (true, (sendToKeyboard st.screenWidth st.screenHeight
      (render st.currentScreenIndex st.screenWidth st.screenHeight) none tst).2.1)
  else
    (false, tst)

/-! Helper lemmas about the chunking loop. -/

theorem chunkLoop_nil (f t : Nat) : chunkLoop f t [] = [] := by cases f <;> rfl

theorem chunkLoop_succ (f t a : Nat) (l : List Nat) :
    chunkLoop (f + 1) t (a :: l) =
      ([0, t] ++ (a :: l).take 30) :: chunkLoop f 3 ((a :: l).drop 30) := rfl

theorem chunkLoop_length (f : Nat) : ∀ (t : Nat) (buf : List Nat), buf.length ≤ f →
    (chunkLoop f t buf).length = (buf.length + 29) / 30 := by
  induction f with
  | zero =>
      intro t buf hf
      have hb : buf = [] := List.eq_nil_of_length_eq_zero (Nat.le_zero.mp hf)
      subst hb
      simp [chunkLoop_nil]
  | succ f ih =>
      intro t buf hf
      cases buf with
      | nil => simp [chunkLoop_nil]
      | cons a l =>
          rw [chunkLoop_succ]
          have hle : ((a :: l).drop 30).length ≤ f := by
            simp [List.length_drop] at hf ⊢
            omega
          rw [List.length_cons, ih 3 _ hle]
          simp [List.length_drop]
          omega

theorem chunkLoop_flatten (f : Nat) : ∀ (t : Nat) (buf : List Nat), buf.length ≤ f →
    ((chunkLoop f t buf).map (fun p => p.drop 2)).flatten = buf := by
  induction f with
  | zero =>
      intro t buf hf
      have hb : buf = [] := List.eq_nil_of_length_eq_zero (Nat.le_zero.mp hf)
      subst hb
      simp [chunkLoop_nil]
  | succ f ih =>
      intro t buf hf
      cases buf with
      | nil => simp [chunkLoop_nil]
      | cons a l =>
          rw [chunkLoop_succ]
          have hle : ((a :: l).drop 30).length ≤ f := by
            simp [List.length_drop] at hf ⊢
            omega
          simp only [List.map_cons, List.flatten_cons]
          rw [ih 3 _ hle]
          have h2 : ([0, t] ++ (a :: l).take 30).drop 2 = (a :: l).take 30 := rfl
          rw [h2, List.take_append_drop]

theorem chunkLoop_packet (f : Nat) : ∀ (t : Nat) (buf : List Nat), buf.length ≤ f →
    ∀ i, i < (chunkLoop f t buf).length →
    ((chunkLoop f t buf).getD i []).take 2 = [0, if i = 0 then t else 3] ∧
    (((chunkLoop f t buf).getD i []).drop 2).length ≤ 30 := by
  induction f with
  | zero =>
      intro t buf hf i hi
      have hb : buf = [] := List.eq_nil_of_length_eq_zero (Nat.le_zero.mp hf)
      subst hb
      rw [chunkLoop_nil] at hi
      simp at hi
  | succ f ih =>
      intro t buf hf i hi
      cases buf with
      | nil =>
          rw [chunkLoop_nil] at hi
          simp at hi
      | cons a l =>
          rw [chunkLoop_succ] at hi ⊢
          cases i with
          | zero =>
              refine ⟨rfl, ?_⟩
              have h2 : (([0, t] ++ (a :: l).take 30)).drop 2 = (a :: l).take 30 := rfl
              simp only [List.getD_cons_zero, h2, List.length_take]
              omega
          | succ i =>
              simp only [List.getD_cons_succ]
              simp only [List.length_cons] at hi
              have hle : ((a :: l).drop 30).length ≤ f := by
                simp [List.length_drop] at hf ⊢
                omega
              have h3 := ih 3 ((a :: l).drop 30) hle i (by omega)
              refine ⟨?_, h3.2⟩
              rw [h3.1]
              by_cases h : i = 0 <;> simp [h]

/-! Claim theorems. -/

/-- C1: for every payload `buf` of length L, the packet list built by
`sendToKeyboard` (`chunkLines`, src/index.js lines 352-362) has exactly
ceil(L/30) = (L+29)/30 packets; packet i starts with the two header bytes
`[0, 2]` for i = 0 and `[0, 3]` for every later packet, carries at most 30
payload bytes after the header, and concatenating all packets with their two
header bytes stripped reconstructs `buf` exactly. -/
theorem C1_chunking (buf : List Nat) :
    (chunkLines buf).length = (buf.length + 29) / 30 ∧
    (∀ i, i < (chunkLines buf).length →
      ((chunkLines buf).getD i []).take 2 = [0, if i = 0 then 2 else 3] ∧
      (((chunkLines buf).getD i []).drop 2).length ≤ 30) ∧
    ((chunkLines buf).map (fun p => p.drop 2)).flatten = buf := by
  refine ⟨chunkLoop_length buf.length 2 buf le_rfl,
    fun i hi => chunkLoop_packet buf.length 2 buf le_rfl i hi,
    chunkLoop_flatten buf.length 2 buf le_rfl⟩

/-- Witness for C1 at a concrete 31-byte payload: two packets, the second
headed `[0, 3]`, and stripping headers reconstructs the payload. -/
theorem C1_chunking_witness :
    ((chunkLines (List.replicate 31 65)).getD 1 []).take 2 = [0, 3] ∧
    ((chunkLines (List.replicate 31 65)).map (fun p => p.drop 2)).flatten
      = List.replicate 31 65 :=
  ⟨((C1_chunking (List.replicate 31 65)).2.1 1 (by decide)).1,
   (C1_chunking (List.replicate 31 65)).2.2⟩

/-- C2: for every rendered text and every width and height, the encoded frame
(src/index.js lines 343-350) has length exactly `w * h`, and when `w * h = 0`
it is empty. -/
theorem C2_frame_length (s : List Nat) (w h : Nat) :
    (encode s w h).length = w * h ∧ (w * h = 0 → encode s w h = []) := by
  constructor
  · simp [encode, Nat.mul_comm]
  · intro hwh
    have hzero : h * w = 0 := by rw [Nat.mul_comm]; exact hwh
    simp [encode, hzero]

/-- Witness for C2 at text "A", width 0, height 3. -/
theorem C2_frame_length_witness :
    (encode [65] 0 3).length = 0 * 3 ∧ encode [65] 0 3 = [] :=
  ⟨(C2_frame_length [65] 0 3).1, (C2_frame_length [65] 0 3).2 rfl⟩

/-- C3 (code-bug evidence): for width 10, height 2 and rendered text "AB"
(char codes [65, 66]) the encoder of src/index.js lines 343-350 yields the
byte 'A' followed by 19 spaces, not "AB" followed by 18 spaces as the claim
states: the loop condition `i >= screen.length - 1` replaces the final text
character with padding. -/
theorem C3_encode_failing_eval :
    encode [65, 66] 10 2 = 65 :: List.replicate 19 32 ∧
    encode [65, 66] 10 2 ≠ [65, 66] ++ List.replicate 18 32 := by decide

/-- C4 (code-bug evidence): a 63-byte frame (w=9, h=7) splits into 3 packets;
with a write error thrown on packet 2 (`failAt = some 1`, 0-based) only packet
1 is written — the remaining packets are indeed aborted — but contrary to the
claim the in-flight flag is NOT cleared (`screenBufferActive` stays `true`, so
every later push is suppressed), `screenLastUpdate` was already recorded before
any write, and a subsequent push of the same text writes nothing. -/
theorem C4_error_failing_eval :
    (sendToKeyboard 9 7 (List.replicate 63 65) (some 1) initTransportState).1.length = 1 ∧
    (sendToKeyboard 9 7 (List.replicate 63 65) (some 1) initTransportState).2.2 = true ∧
    (sendToKeyboard 9 7 (List.replicate 63 65) (some 1)
      initTransportState).2.1.screenBufferActive = true ∧
    (sendToKeyboard 9 7 (List.replicate 63 65) (some 1)
      initTransportState).2.1.screenLastUpdate = some (List.replicate 63 65) ∧
    (sendToKeyboard 9 7 (List.replicate 63 65) none
      (sendToKeyboard 9 7 (List.replicate 63 65) (some 1) initTransportState).2.1).1
      = [] := by decide

/-- C5 counterexample: after a successful push of text "ABC" at w=1, h=2 the
encoded frame is the same two bytes as for text "ABD"; yet the next push of
"ABD" is NOT suppressed — `sendToKeyboard` (line 334) compares the rendered
text, not the encoded bytes — so it writes a packet again even though the
pushed bytes equal the last successfully pushed payload. -/
theorem C5_bytes_counterexample :
    encode [65, 66, 68] 1 2 = encode [65, 66, 67] 1 2 ∧
    (sendToKeyboard 1 2 [65, 66, 68] none
      (sendToKeyboard 1 2 [65, 66, 67] none initTransportState).2.1).1 ≠ [] := by decide

/-- C5 (amended): change suppression keys on the rendered text, recorded when a
send starts.  With no send in flight: a push whose text equals the recorded
last text returns immediately with no writes and no state change; a first-ever
push (nothing recorded) is never suppressed — it writes the chunked packets of
the encoded frame and records the text; and two pushes of the same text in a
row write only on the first: the second push writes nothing. -/
theorem C5_text_suppression (w h : Nat) (s : List Nat) (st : TransportState)
    (hfl : st.screenBufferActive = false) :
    (st.screenLastUpdate = some s → sendToKeyboard w h s none st = ([], st, false)) ∧
    (st.screenLastUpdate = none →
      (sendToKeyboard w h s none st).1 = chunkLines (encode s w h) ∧
      (sendToKeyboard w h s none st).2.1 = ⟨false, some s⟩) ∧
    (sendToKeyboard w h s none (sendToKeyboard w h s none st).2.1).1 = [] := by
  refine ⟨fun hlast => ?_, fun hlast => ?_, ?_⟩
  · simp [sendToKeyboard, hlast]
  · have hcond : ¬(st.screenBufferActive = true ∨ st.screenLastUpdate = some s) := by
      simp [hfl, hlast]
    simp [sendToKeyboard, hcond]
  · by_cases hlast : st.screenLastUpdate = some s
    · simp [sendToKeyboard, hlast]
    · have hcond : ¬(st.screenBufferActive = true ∨ st.screenLastUpdate = some s) := by
        simp [hfl, hlast]
      simp [sendToKeyboard, hcond]

/-- Witness for C5 (amended): concrete first-ever push of text "A" at w=1, h=1
writes the chunked frame, and an immediate second push of the same text writes
nothing. -/
theorem C5_text_suppression_witness :
    (sendToKeyboard 1 1 [65] none initTransportState).1
      = chunkLines (encode [65] 1 1) ∧
    (sendToKeyboard 1 1 [65] none
      (sendToKeyboard 1 1 [65] none initTransportState).2.1).1 = [] :=
  ⟨((C5_text_suppression 1 1 [65] initTransportState rfl).2.1 rfl).1,
   (C5_text_suppression 1 1 [65] initTransportState rfl).2.2⟩

/-- C6: single-flight — while a send is in flight (`screenBuffer` non-null,
src/index.js line 334) any push, with or without an injected write error,
returns immediately: no packets are written, the transport state is unchanged
and no error is raised, so packets of two different frames are never
interleaved on the device. -/
theorem C6_single_flight (w h : Nat) (s : List Nat) (failAt : Option Nat)
    (st : TransportState) (hfl : st.screenBufferActive = true) :
    sendToKeyboard w h s failAt st = ([], st, false) := by
  simp [sendToKeyboard, hfl]

/-- Witness for C6 at a concrete in-flight state. -/
theorem C6_single_flight_witness :
    sendToKeyboard 2 2 [65] none ⟨true, none⟩ = ([], ⟨true, none⟩, false) :=
  C6_single_flight 2 2 [65] none ⟨true, none⟩ rfl

/-- C7: an inbound report is applied iff its first byte is the selection marker
1 and its second byte is at most `screensLength - 1 = 3` (src/index.js line
425); on a valid report the index, width and height are set together from
bytes 1, 2 and 3 and an immediate scheduler pass (`triggerUpdate`) fires; any
report whose screen index exceeds the maximum valid index leaves the
`ScheduleState` completely unchanged and fires nothing. -/
theorem C7_report_validation (b0 b1 b2 b3 : Nat) (st : ScheduleState) :
    ((onData b0 b1 b2 b3 st).2 = true ↔ (b0 = 1 ∧ b1 ≤ screensLength - 1)) ∧
    (b0 = 1 → b1 ≤ screensLength - 1 →
      (onData b0 b1 b2 b3 st).1 = ⟨b1, b2, b3⟩) ∧
    (screensLength - 1 < b1 → onData b0 b1 b2 b3 st = (st, false)) := by
  refine ⟨⟨fun htr => ?_, fun hc => by simp [onData, hc]⟩,
    fun h1 h2 => by simp [onData, h1, h2], fun hgt => ?_⟩
  · by_cases hc : b0 = 1 ∧ b1 ≤ screensLength - 1
    · exact hc
    · simp [onData, hc] at htr
  · have hc : ¬(b0 = 1 ∧ b1 ≤ screensLength - 1) := by
      rintro ⟨-, hle⟩
      exact absurd hgt (Nat.not_lt.mpr hle)
    simp [onData, hc]

/-- Witness for C7: report [1, 2, 10, 4] selects screen 2 with w=10, h=4 and
triggers a pass; report [1, 4, 10, 4] (index one past the maximum) changes
nothing. -/
theorem C7_report_validation_witness :
    (onData 1 2 10 4 initScheduleState).2 = true ∧
    (onData 1 2 10 4 initScheduleState).1 = ⟨2, 10, 4⟩ ∧
    onData 1 4 10 4 initScheduleState = (initScheduleState, false) :=
  ⟨(C7_report_validation 1 2 10 4 initScheduleState).1.mpr ⟨rfl, by decide⟩,
   (C7_report_validation 1 2 10 4 initScheduleState).2.1 rfl (by decide),
   (C7_report_validation 1 4 10 4 initScheduleState).2.2 (by decide)⟩

/-- C8: the per-source refresh condition of src/index.js lines 390/394/398,
with `elapsed = now - lastUpdate` (timestamps monotone, `lastUpdate ≤ now`),
holds iff the slot is selected and `elapsed ≥ updateTime`, or
`elapsed ≥ backgroundTime` regardless of selection; concretely with active
interval 1000 and background interval 30000, a selected source at elapsed 1001
is due and an unselected source below elapsed 30000 is not. -/
theorem C8_refresh_policy (selected : Bool) (lastUpdate now updateTime backgroundTime : Nat)
    (hle : lastUpdate ≤ now) :
    (refreshDue selected lastUpdate now updateTime backgroundTime = true ↔
      ((selected = true ∧ updateTime ≤ now - lastUpdate)
        ∨ backgroundTime ≤ now - lastUpdate)) ∧
    refreshDue true 0 1001 1000 30000 = true ∧
    (∀ e, e < 30000 → refreshDue false 0 e 1000 30000 = false) := by
  refine ⟨?_, by decide, fun e he => ?_⟩
  · simp only [refreshDue, Bool.or_eq_true, Bool.and_eq_true, decide_eq_true_eq]
    constructor
    · rintro (⟨hs, hu⟩ | hb)
      · exact Or.inl ⟨hs, by omega⟩
      · exact Or.inr (by omega)
    · rintro (⟨hs, hu⟩ | hb)
      · exact Or.inl ⟨hs, by omega⟩
      · exact Or.inr (by omega)
  · simp only [refreshDue, Bool.false_and, Bool.false_or, decide_eq_false_iff_not]
    omega

/-- Witness for C8 at concrete timestamps (lastUpdate 500, now 1501) and at
concrete elapsed 1001 for the unselected source. -/
theorem C8_refresh_policy_witness :
    (refreshDue true 500 1501 1000 30000 = true ↔
      ((true = true ∧ 1000 ≤ 1501 - 500) ∨ 30000 ≤ 1501 - 500)) ∧
    refreshDue false 0 1001 1000 30000 = false :=
  ⟨(C8_refresh_policy true 500 1501 1000 30000 (by decide)).1,
   (C8_refresh_policy true 500 1501 1000 30000 (by decide)).2.2 1001 (by decide)⟩

/-- A refresh condition cannot hold before either interval has elapsed. -/
theorem refreshDue_false_of_lt (sel : Bool) (last m u b : Nat)
    (hu : m < last + u) (hb : m < last + b) :
    refreshDue sel last m u b = false := by
  have d1 : decide (last + u ≤ m) = false := decide_eq_false (by omega)
  have d2 : decide (last + b ≤ m) = false := decide_eq_false (by omega)
  simp [refreshDue, d1, d2]

/-- C9: whenever a tick decides to refresh a slot, `updateKeyboardScreen`
assigns that slot's timestamp `last_updates[S] := now` synchronously at
decision time (src/index.js lines 392/396/400), independently of the outcome of
the asynchronous trigger it fired (the trigger result is never consulted by the
tick); consequently, even if the triggered refresh fails and the renderer
output stays stale, no later tick — whatever screen is then selected — decides
to refresh that slot again before a full active interval has elapsed from the
decision. -/
theorem C9_decision_timestamp (idx idx2 : Nat) (t : LastUpdates) (now now2 : Nat) :
    ((updateRefreshStage idx t now).2.1 = true →
      (updateRefreshStage idx t now).1.perf = now ∧
      (now2 < now + PERF_UPDATE_TIME →
        (updateRefreshStage idx2 (updateRefreshStage idx t now).1 now2).2.1 = false)) ∧
    ((updateRefreshStage idx t now).2.2.1 = true →
      (updateRefreshStage idx t now).1.stock = now ∧
      (now2 < now + STOCK_UPDATE_TIME →
        (updateRefreshStage idx2 (updateRefreshStage idx t now).1 now2).2.2.1 = false)) ∧
    ((updateRefreshStage idx t now).2.2.2 = true →
      (updateRefreshStage idx t now).1.weather = now ∧
      (now2 < now + WEATHER_UPDATE_TIME →
        (updateRefreshStage idx2 (updateRefreshStage idx t now).1 now2).2.2.2 = false)) := by
  refine ⟨fun hp => ?_, fun hs => ?_, fun hw => ?_⟩
  · have hflag : refreshDue (decide (idx = SCREEN_PERF)) t.perf now
        PERF_UPDATE_TIME PERF_BACKGROUND_TIME = true := hp
    have hstamp : (updateRefreshStage idx t now).1.perf = now := by
      show (if refreshDue (decide (idx = SCREEN_PERF)) t.perf now
          PERF_UPDATE_TIME PERF_BACKGROUND_TIME then now else t.perf) = now
      simp [hflag]
    refine ⟨hstamp, fun hlt => ?_⟩
    have key : (updateRefreshStage idx2 (updateRefreshStage idx t now).1 now2).2.1
        = refreshDue (decide (idx2 = SCREEN_PERF))
            ((updateRefreshStage idx t now).1).perf now2
            PERF_UPDATE_TIME PERF_BACKGROUND_TIME := rfl
    rw [key, hstamp]
    have eb : PERF_BACKGROUND_TIME = 10000 := by decide
    have eu : PERF_UPDATE_TIME = 1000 := by decide
    exact refreshDue_false_of_lt _ _ _ _ _ hlt (by rw [eb]; rw [eu] at hlt; omega)
  · have hflag : refreshDue (decide (idx = SCREEN_STOCK)) t.stock now
        STOCK_UPDATE_TIME STOCK_BACKGROUND_TIME = true := hs
    have hstamp : (updateRefreshStage idx t now).1.stock = now := by
      show (if refreshDue (decide (idx = SCREEN_STOCK)) t.stock now
          STOCK_UPDATE_TIME STOCK_BACKGROUND_TIME then now else t.stock) = now
      simp [hflag]
    refine ⟨hstamp, fun hlt => ?_⟩
    have key : (updateRefreshStage idx2 (updateRefreshStage idx t now).1 now2).2.2.1
        = refreshDue (decide (idx2 = SCREEN_STOCK))
            ((updateRefreshStage idx t now).1).stock now2
            STOCK_UPDATE_TIME STOCK_BACKGROUND_TIME := rfl
    rw [key, hstamp]
    have eb : STOCK_BACKGROUND_TIME = 1800000 := by decide
    have eu : STOCK_UPDATE_TIME = 60000 := by decide
    exact refreshDue_false_of_lt _ _ _ _ _ hlt (by rw [eb]; rw [eu] at hlt; omega)
  · have hflag : refreshDue (decide (idx = SCREEN_WEATHER)) t.weather now
        WEATHER_UPDATE_TIME WEATHER_BACKGROUND_TIME = true := hw
    have hstamp : (updateRefreshStage idx t now).1.weather = now := by
      show (if refreshDue (decide (idx = SCREEN_WEATHER)) t.weather now
          WEATHER_UPDATE_TIME WEATHER_BACKGROUND_TIME then now else t.weather) = now
      simp [hflag]
    refine ⟨hstamp, fun hlt => ?_⟩
    have key : (updateRefreshStage idx2 (updateRefreshStage idx t now).1 now2).2.2.2
        = refreshDue (decide (idx2 = SCREEN_WEATHER))
            ((updateRefreshStage idx t now).1).weather now2
            WEATHER_UPDATE_TIME WEATHER_BACKGROUND_TIME := rfl
    rw [key, hstamp]
    have eb : WEATHER_BACKGROUND_TIME = 600000 := by decide
    have eu : WEATHER_UPDATE_TIME = 60000 := by decide
    exact refreshDue_false_of_lt _ _ _ _ _ hlt (by rw [eb]; rw [eu] at hlt; omega)

/-- Witness for C9: with the perf screen selected and all timestamps 0, the
tick at time 1000 refreshes perf and stamps 1000; the next tick at 1500 does
not refresh perf again. -/
theorem C9_decision_timestamp_witness :
    (updateRefreshStage SCREEN_PERF ⟨0, 0, 0⟩ 1000).1.perf = 1000 ∧
    (updateRefreshStage SCREEN_PERF
      (updateRefreshStage SCREEN_PERF ⟨0, 0, 0⟩ 1000).1 1500).2.1 = false :=
  ⟨((C9_decision_timestamp SCREEN_PERF SCREEN_PERF ⟨0, 0, 0⟩ 1000 1500).1
      (by decide)).1,
   ((C9_decision_timestamp SCREEN_PERF SCREEN_PERF ⟨0, 0, 0⟩ 1000 1500).1
      (by decide)).2 (by decide)⟩

/-- C10: on any tick whose selected screen index is 0 — in particular in the
initial state index=0, width=0, height=0 — the push stage of
`updateKeyboardScreen` (src/index.js lines 446-455) attempts no send, since
`screens[0]` is `null`: nothing is written and the transport state
(in-flight flag and last-sent text) is returned unchanged. -/
theorem C10_no_push_on_slot_zero (kb : Bool) (w h : Nat)
    (render : Nat → Nat → Nat → List Nat) (tst : TransportState) :
    updatePushStage kb ⟨0, w, h⟩ render tst = (false, tst) ∧
    updatePushStage kb initScheduleState render tst = (false, tst) := by
  constructor <;> simp [updatePushStage, initScheduleState, screensHasRenderer]
